import Mathlib

/-!
# Verification of the MCP client-harness scripts

A shallow embedding, in Lean, of the repository's debugging/comparison
scripts, which launch an external CLI as a child process and speak
line-delimited JSON-RPC ("MCP") to it over its standard streams:

* `test_mcp_tools_comparison.py` — the `MCPTester` class
  (`start` / `send_request` / `stop`) and the `test_mcp_functionality`
  comparison driver;
* `test_mcp_simple.py` — the straight-line `test_mcp_server_directly` run;
* `debug_mcp.py` — the `test_mcp_stdio` run;
* `test_mcp_direct_comparison.py` — `test_mcp_server_direct` and `main`;
* `tests/version_utils.py` — `get_version` / `get_user_agent`.

Modelling conventions:

* JSON values are an inductive `Json`; objects are field lists in emission
  order (the order `json.loads` preserves in Python dicts).  Python `==`
  on parsed values is modelled by `pyEq`, which compares objects as
  unordered key→value maps, and Python truthiness by `pyTruthy`.
* `json.dumps` (default separators, no indent) is modelled by `dumps`.
* The child process is an opaque external program, so what its stdout
  yields for one `readline` is an input to the model: a `RecvOutcome` is
  a timeout, an empty line, a line that parses to a given `Json` value,
  or a line that fails to parse.  Likewise whether a spawn attempt
  raises is an input (`Option String`: `some msg` = the raised error).
* Side effects on the process are recorded as an `Act` trace; the
  synchronous `flush` and the asyncio `drain` are both `Act.drain`,
  and blocking-read timeouts are carried on `readLine`/`communicate`
  in whole seconds.  Log prints of raw payloads keep their leading text
  with `dumps` in place of `json.dumps(..., indent=2)`.
* Raised Python exceptions are `Except.error` with the message; a
  returned value is `Except.ok`.
-/

/-- JSON values, as handled by `json.dumps` / `json.loads` in the scripts.
Numbers are integers (the scripts only ever use integer ids and values);
object fields are kept in emission order. -/
inductive Json where
  | null
  | bool (b : Bool)
  | num (n : Int)
  | str (s : String)
  | arr (elems : List Json)
  | obj (fields : List (String × Json))

/-- Decimal digit character, as produced by Python int formatting. -/
def digitChar (d : Nat) : Char := Char.ofNat (48 + d % 10)

/-- Decimal digits of a natural number, most significant first. -/
def natChars (n : Nat) : List Char :=
  if h : n < 10 then [digitChar n]
  else natChars (n / 10) ++ [digitChar (n % 10)]
decreasing_by exact Nat.div_lt_self (by omega) (by omega)

/-- Decimal string of a natural number. -/
def natStr (n : Nat) : String := String.mk (natChars n)

/-- Decimal string of an integer, as Python prints an `int`. -/
def intStr (n : Int) : String := if n < 0 then "-" ++ natStr n.natAbs else natStr n.natAbs

/-- Lowercase hexadecimal digit character. -/
def hexDigitChar (n : Nat) : Char :=
  if n < 10 then Char.ofNat (48 + n) else Char.ofNat (87 + n)

/-- How `json.dumps` renders one character of a string: the two-character
escapes for quote, backslash and common control characters, `\u00xx` for
the remaining control characters, and the character itself otherwise. -/
def escapeChar (c : Char) : String :=
  if c = '"' then "\\\""
  else if c = '\\' then "\\\\"
  else if c = '\n' then "\\n"
  else if c = '\r' then "\\r"
  else if c = '\t' then "\\t"
  else if c = '\x08' then "\\b"
  else if c = '\x0c' then "\\f"
  else if c.toNat < 32 then
    "\\u00" ++ String.mk [hexDigitChar (c.toNat / 16), hexDigitChar (c.toNat % 16)]
  else String.singleton c

/-- `json.dumps` escaping of a string body (without the surrounding quotes). -/
def escapeString (s : String) : String :=
  s.data.foldr (fun c acc => escapeChar c ++ acc) ""

mutual

/-- Model of Python `json.dumps` with its default separators
(`", "` between items, `": "` after keys) and no indentation. -/
def dumps : Json → String
  | .null => "null"
  | .bool true => "true"
  | .bool false => "false"
  | .num n => intStr n
  | .str s => "\"" ++ escapeString s ++ "\""
  | .arr xs => "[" ++ dumpsArr xs ++ "]"
  | .obj fs => "\x7b" ++ dumpsObj fs ++ "\x7d"

/-- Array elements of `dumps`, joined by `", "`. -/
def dumpsArr : List Json → String
  | [] => ""
  | [x] => dumps x
  | x :: y :: xs => dumps x ++ ", " ++ dumpsArr (y :: xs)

/-- Object fields of `dumps`, `"key": value` joined by `", "`. -/
def dumpsObj : List (String × Json) → String
  | [] => ""
  | [(k, v)] => "\"" ++ escapeString k ++ "\": " ++ dumps v
  | (k, v) :: f :: fs =>
    "\"" ++ escapeString k ++ "\": " ++ dumps v ++ ", " ++ dumpsObj (f :: fs)

end

mutual

/-- Model of Python `==` on parsed JSON values: dicts compare as
unordered key→value maps (parsed dicts have unique keys), lists
elementwise, scalars by value. -/
def pyEq : Json → Json → Bool
  | .null, .null => true
  | .bool a, .bool b => a == b
  | .num a, .num b => a == b
  | .str a, .str b => a == b
  | .arr xs, .arr ys => pyEqList xs ys
  | .obj as, .obj bs => as.length == bs.length && pyEqFields as bs
  | _, _ => false
termination_by a b => (sizeOf a, 0)

/-- Elementwise `pyEq` on lists. -/
def pyEqList : List Json → List Json → Bool
  | [], [] => true
  | x :: xs, y :: ys => pyEq x y && pyEqList xs ys
  | _, _ => false
termination_by xs ys => (sizeOf xs, 0)

/-- Every field of the first dict maps, under the second dict, to a
`pyEq`-equal value. -/
def pyEqFields : List (String × Json) → List (String × Json) → Bool
  | [], _ => true
  | (k, v) :: rest, bs => pyEqKey k v bs && pyEqFields rest bs
termination_by as bs => (sizeOf as, 0)

/-- Look key `k` up in `bs` and compare its value with `v`. -/
def pyEqKey : String → Json → List (String × Json) → Bool
  | _, _, [] => false
  | k, v, (k2, w) :: bs => if k = k2 then pyEq v w else pyEqKey k v bs
termination_by k v bs => (sizeOf v + 1, sizeOf bs)

end

/-- Python truthiness of a parsed JSON value (`if node_result: ...`):
`None`, `False`, `0`, and empty strings/lists/dicts are falsy. -/
def pyTruthy : Json → Bool
  | .null => false
  | .bool b => b
  | .num n => n != 0
  | .str s => !s.isEmpty
  | .arr xs => !xs.isEmpty
  | .obj fs => !fs.isEmpty

/-- Truthiness of an optional value (`None` is falsy). -/
def optTruthy : Option Json → Bool
  | none => false
  | some j => pyTruthy j

/-- Python `dict.get(key)` on a dict built from an assoc list by repeated
insertion: the last binding of a key wins. -/
def dictGet : List (String × Json) → String → Option Json
  | [], _ => none
  | (k, v) :: rest, key =>
    match dictGet rest key with
    | some w => some w
    | none => if key == k then some v else none

/-- The `"id"` member of a request or response object, when it is an
integer (the only kind of id the scripts use). -/
def idOf (j : Json) : Option Int :=
  match j with
  | .obj fs =>
    match dictGet fs "id" with
    | some (.num n) => some n
    | _ => none
  | _ => none

/-- The `"method"` member of a request object, when it is a string. -/
def methodOf (j : Json) : Option String :=
  match j with
  | .obj fs =>
    match dictGet fs "method" with
    | some (.str s) => some s
    | _ => none
  | _ => none

/-- Newline-freeness of a string: the property that makes one `dumps`
output plus one trailing `"\n"` a well-delimited protocol line. -/
abbrev NLF (s : String) : Prop := '\n' ∉ s.data

/-- Number of newline characters in a string. -/
def newlineCount (s : String) : Nat := s.data.count '\n'

/-- Python `str(...)` of a Bool (`True` / `False`). -/
def pyBoolStr : Bool → String
  | true => "True"
  | false => "False"

mutual

/-- Python `repr(...)` of a parsed JSON value (string escaping inside
`repr` is elided: the corpus never prints container versions). -/
def pyRepr : Json → String
  | .null => "None"
  | .bool true => "True"
  | .bool false => "False"
  | .num n => intStr n
  | .str s => "\x27" ++ s ++ "\x27"
  | .arr xs => "[" ++ pyReprArr xs ++ "]"
  | .obj fs => "\x7b" ++ pyReprObj fs ++ "\x7d"

/-- List elements of `pyRepr`, joined by `", "`. -/
def pyReprArr : List Json → String
  | [] => ""
  | [x] => pyRepr x
  | x :: y :: xs => pyRepr x ++ ", " ++ pyReprArr (y :: xs)

/-- Dict fields of `pyRepr`, joined by `", "`. -/
def pyReprObj : List (String × Json) → String
  | [] => ""
  | [(k, v)] => "\x27" ++ k ++ "\x27: " ++ pyRepr v
  | (k, v) :: f :: fs => "\x27" ++ k ++ "\x27: " ++ pyRepr v ++ ", " ++ pyReprObj (f :: fs)

end

/-- Python `str(...)` of a parsed JSON value, as interpolated by an
f-string: a string interpolates as itself, everything else as its repr. -/
def pyStr (j : Json) : String :=
  match j with
  | .str s => s
  | j => pyRepr j

/-- One observable side effect of a script on its child process or on
the terminal.  Timeouts (in whole seconds, `none` = block forever) are
carried on the read actions.  The synchronous `flush` of
`test_mcp_simple.py` / `debug_mcp.py` and the asyncio `drain` of the
other scripts are both `drain`. -/
inductive Act where
  | spawn (cmd : List String)
  | write (data : String)
  | drain
  | readLine (timeoutSecs : Option Nat)
  | communicate (timeoutSecs : Option Nat)
  | terminate
  | kill
  | wait
  | print (msg : String)
deriving DecidableEq

/-- What the child's stdout yields for one awaited `readline` (the child
is an opaque external program, so this is an input of the model):
no line within the timeout, an empty line, a line that `json.loads`
parses to the given value, or a line that fails to parse. -/
inductive RecvOutcome where
  | timeout
  | emptyLine
  | parsed (j : Json)
  | decodeError (msg : String)

/-- The error-tagged dictionaries `MCPTester.send_request` returns on a
failed exchange, e.g. `{"error": "Timeout"}`. -/
def errorResult (msg : String) : Json := .obj [("error", .str msg)]

/-- The line `send_request` writes for a request: one `json.dumps`
document followed by one newline. -/
def requestLine (req : Json) : String := dumps req ++ "\n"

/-- Return value of `MCPTester.send_request` as a function of the receive
outcome (from `test_mcp_tools_comparison.py:39-65`): the parsed response
line whatever it contains, or an error-tagged dict.  Exceptions from the
awaited read are caught inside `send_request`; nothing is re-raised. -/
def sendRequestResult : RecvOutcome → Json
  | .parsed j => j
  | .emptyLine => errorResult "Empty response"
  | .timeout => errorResult "Timeout"
  | .decodeError m => errorResult ("JSON decode error: " ++ m)

/-- `MCPTester.send_request`: raises `RuntimeError` when the process was
never started; otherwise writes the request line, drains, awaits one
stdout line with a 5-second bound, and returns `sendRequestResult`.
The pair is (returned value or raised exception, action trace). -/
def sendRequest (started : Bool) (req : Json) (out : RecvOutcome) :
    Except String Json × List Act :=
  if started then
    (.ok (sendRequestResult out), [.write (requestLine req), .drain, .readLine (some 5)])
  else (.error "Process not started", [])

/-- The `initialize` request of `test_mcp_tools_comparison.py` (id 1). -/
def tcInitRequest : Json := .obj [
  ("jsonrpc", .str "2.0"), ("id", .num 1), ("method", .str "initialize"),
  ("params", .obj [
    ("protocolVersion", .str "2024-11-05"),
    ("capabilities", .obj [
      ("roots", .obj [("listChanged", .bool true)]),
      ("sampling", .obj [])]),
    ("clientInfo", .obj [("name", .str "test-client"), ("version", .str "1.0.0")])])]

/-- The `tools/list` request of `test_mcp_tools_comparison.py` (id 2). -/
def tcToolsListRequest : Json := .obj [
  ("jsonrpc", .str "2.0"), ("id", .num 2), ("method", .str "tools/list"),
  ("params", .obj [])]

/-- The `tools/call` request of `test_mcp_tools_comparison.py` (id 3). -/
def tcToolCallRequest : Json := .obj [
  ("jsonrpc", .str "2.0"), ("id", .num 3), ("method", .str "tools/call"),
  ("params", .obj [
    ("name", .str "get_health_checks"), ("arguments", .obj [])])]

/-- The ordered request script of one `test_mcp_functionality` session. -/
def tcRequests : List Json := [tcInitRequest, tcToolsListRequest, tcToolCallRequest]

/-- Per-session record kept in `results[tester.name]` by
`test_mcp_functionality`: the three step responses on success, or an
error tag when starting the session raised. -/
structure SessionResult where
  success : Bool
  init : Option Json
  tools : Option Json
  toolCall : Option Json
  error : Option String

/-- One session of `test_mcp_functionality` (lines 94-149): start the
process (`launch = some msg` means `create_subprocess_exec` raised `msg`),
then — since `send_request` never raises once started — always send all
three requests in order, record the three results, and in the `finally`
block terminate the child and wait on it.  A launch failure is caught by
the `except` clause, printed, and recorded as an error-tagged result;
`stop()` then does nothing because `self.process` is still `None`. -/
def runSession (cmd : List String) (launch : Option String)
    (o1 o2 o3 : RecvOutcome) : SessionResult × List Act :=
  match launch with
  | some e =>
    (⟨false, none, none, none, some e⟩, [.spawn cmd, .print ("Error: " ++ e)])
  | none =>
    (⟨true, some (sendRequestResult o1), some (sendRequestResult o2),
      some (sendRequestResult o3), none⟩,
     [.spawn cmd]
       ++ (sendRequest true tcInitRequest o1).2
       ++ (sendRequest true tcToolsListRequest o2).2
       ++ (sendRequest true tcToolCallRequest o3).2
       ++ [.terminate, .wait])

/-- What the comparison loop reports for one step. -/
inductive StepReport where
  | identical
  | differ (node built : Json)
  | missing (node built : Option Json)

/-- One step of the `DETAILED COMPARISON` loop
(`test_mcp_tools_comparison.py:151-172`): when both step results are
truthy (`if node_result and built_result:`), report `identical` or
`differ` (printing both payloads) according to Python `==`; otherwise
report missing results. -/
def compareStep (node built : Option Json) : StepReport :=
  match node, built with
  | some x, some y =>
    if pyTruthy x && pyTruthy y then
      if pyEq x y then .identical else .differ x y
    else .missing (some x) (some y)
  | a, b => .missing a b

/-- The prints of one step of the comparison loop. -/
def stepReportTrace (label : String) (node built : Option Json) : List Act :=
  [.print ("--- " ++ label ++ " COMPARISON ---")] ++
  match compareStep node built with
  | .identical => [.print (label ++ ": Both versions identical")]
  | .differ x y =>
    [.print (label ++ ": Versions differ!"),
     .print ("Node.js: " ++ dumps x), .print ("Built: " ++ dumps y)]
  | .missing a b =>
    [.print (label ++ ": Missing results")]
      ++ (match a with | some x => [.print ("Node.js: " ++ dumps x)] | none => [])
      ++ (match b with | some y => [.print ("Built: " ++ dumps y)] | none => [])

/-- The comparison and summary prints of `test_mcp_functionality`
(lines 151-187), given the two session records. -/
def comparisonTrace (nr br : SessionResult) : List Act :=
  [.print "=== DETAILED COMPARISON ==="]
    ++ stepReportTrace "INIT" nr.init br.init
    ++ stepReportTrace "TOOLS" nr.tools br.tools
    ++ stepReportTrace "TOOL_CALL" nr.toolCall br.toolCall
    ++ [.print "=== FINAL SUMMARY ===",
        .print ("Node.js overall success: " ++ pyBoolStr nr.success),
        .print ("Built version overall success: " ++ pyBoolStr br.success)]
    ++ (if nr.success != br.success then
          [.print "BUG DETECTED: Different success rates!"]
        else [.print "Both versions have same success rate"])

/-- The outcome of one whole `test_mcp_functionality` run. -/
structure ComparisonOutcome where
  nodeResult : SessionResult
  builtResult : SessionResult
  reports : List StepReport
  nodeSuccess : Bool
  builtSuccess : Bool
  bugDetected : Bool

/-- The whole body of `test_mcp_functionality`: run the Node.js session,
run the Built session, compare the three steps, and print the final
summary.  Inputs: the two commands, and each session's launch outcome
and three receive outcomes. -/
def runComparisonBody (nodeCmd builtCmd : List String) (ln : Option String)
    (n1 n2 n3 : RecvOutcome) (lb : Option String) (b1 b2 b3 : RecvOutcome) :
    ComparisonOutcome × List Act :=
  let nr := (runSession nodeCmd ln n1 n2 n3).1
  let br := (runSession builtCmd lb b1 b2 b3).1
  (⟨nr, br,
    [compareStep nr.init br.init, compareStep nr.tools br.tools,
     compareStep nr.toolCall br.toolCall],
    nr.success, br.success, nr.success != br.success⟩,
   (runSession nodeCmd ln n1 n2 n3).2 ++ (runSession builtCmd lb b1 b2 b3).2
     ++ comparisonTrace nr br)

/-- The `initialize` request of `test_mcp_simple.py` (id 1). -/
def simpleInitRequest : Json := .obj [
  ("jsonrpc", .str "2.0"), ("id", .num 1), ("method", .str "initialize"),
  ("params", .obj [
    ("protocolVersion", .str "2025-03-26"),
    ("capabilities", .obj []),
    ("clientInfo", .obj [("name", .str "test-client"), ("version", .str "1.0.0")])])]

/-- The `notifications/initialized` notification of `test_mcp_simple.py`
(no id: no response is expected). -/
def initializedNotification : Json := .obj [
  ("jsonrpc", .str "2.0"), ("method", .str "notifications/initialized")]

/-- The `tools/list` request of `test_mcp_simple.py` (id 2, no params). -/
def simpleToolsListRequest : Json := .obj [
  ("jsonrpc", .str "2.0"), ("id", .num 2), ("method", .str "tools/list")]

/-- The `tools/call` request of `test_mcp_simple.py` (id 3,
tool `system_status`, empty arguments). -/
def simpleToolCallRequest : Json := .obj [
  ("jsonrpc", .str "2.0"), ("id", .num 3), ("method", .str "tools/call"),
  ("params", .obj [("name", .str "system_status"), ("arguments", .obj [])])]

/-- The ordered request script of `test_mcp_server_directly`
(`test_mcp_simple.py:23-89`). -/
def simpleRequests : List Json :=
  [simpleInitRequest, initializedNotification, simpleToolsListRequest,
   simpleToolCallRequest]

/-- The command `test_mcp_simple.py` launches. -/
def simpleCmd : List String :=
  ["bun", "/Users/slava/work/helpmetest/cli/src/index.js", "mcp", "--verbose"]

/-- The straight-line action trace of `test_mcp_server_directly`: spawn,
then write/flush each request in order — reading one reply line after the
initialize, tools/list and tools/call writes (plain blocking `readline`,
no timeout) but not after the notification — then terminate and wait in
the `finally` block. -/
def simpleScriptTrace : List Act :=
  [.spawn simpleCmd,
   .write (requestLine simpleInitRequest), .drain, .readLine none,
   .write (requestLine initializedNotification), .drain,
   .write (requestLine simpleToolsListRequest), .drain, .readLine none,
   .write (requestLine simpleToolCallRequest), .drain, .readLine none,
   .terminate, .wait]

/-- The `initialize` request of `debug_mcp.py` (id 1). -/
def debugInitRequest : Json := .obj [
  ("jsonrpc", .str "2.0"), ("id", .num 1), ("method", .str "initialize"),
  ("params", .obj [
    ("protocolVersion", .str "2024-11-05"),
    ("capabilities", .obj [("tools", .obj [])]),
    ("clientInfo", .obj [("name", .str "debug-client"), ("version", .str "1.0.0")])])]

/-- The action trace of `test_mcp_stdio` (`debug_mcp.py`): spawn
`bun <cliDir>/src/index.js mcp --verbose`, write and flush the initialize
line, then `communicate(timeout=5)`.  On `TimeoutExpired` (lines 55-66)
it prints `Process timed out`, kills the child, and drains it with a
second `communicate`; otherwise it prints the captured streams.  Either
way the `finally` block sees the process already reaped and control
returns to the caller. -/
def debugRun (cliDir : String) (timedOut : Bool) (so se : String) (rc : Int) :
    List Act :=
  [.spawn ["bun", cliDir ++ "/src/index.js", "mcp", "--verbose"],
   .write (requestLine debugInitRequest), .drain, .communicate (some 5)]
    ++ (if timedOut then
          [.print "Process timed out", .kill, .communicate none,
           .print ("STDOUT after kill: " ++ so), .print ("STDERR after kill: " ++ se)]
        else
          [.print ("STDOUT: " ++ so), .print ("STDERR: " ++ se),
           .print ("Return code: " ++ intStr rc)])

/-- The `initialize` request of `test_mcp_direct_comparison.py` (id 1). -/
def dcInitRequest : Json := .obj [
  ("jsonrpc", .str "2.0"), ("id", .num 1), ("method", .str "initialize"),
  ("params", .obj [
    ("protocolVersion", .str "2024-11-05"),
    ("capabilities", .obj [
      ("roots", .obj [("listChanged", .bool true)]),
      ("sampling", .obj [])]),
    ("clientInfo", .obj [("name", .str "test-client"), ("version", .str "1.0.0")])])]

/-- Result dictionary returned by `test_mcp_server_direct`. -/
structure DirectResult where
  success : Bool
  error : Option String
  stdout : Option String
  stderr : Option String
  returncode : Option Int

/-- `test_mcp_server_direct` (`test_mcp_direct_comparison.py:27-90`):
spawn the command (`launch = some msg` = the spawn raised and the
`except` clause returns an error-tagged result with no protocol traffic);
otherwise write and drain the initialize line and `communicate` with a
10-second bound — on timeout, print, kill and return an error-tagged
result, else return the captured streams with `success = (returncode == 0)`. -/
def runDirect (cmd : List String) (launch : Option String) (timedOut : Bool)
    (rc : Int) (so se : String) : DirectResult × List Act :=
  match launch with
  | some e =>
    (⟨false, some e, none, none, none⟩, [.spawn cmd, .print ("Exception: " ++ e)])
  | none =>
    if timedOut then
      (⟨false, some "Timeout", none, none, none⟩,
       [.spawn cmd, .write (requestLine dcInitRequest), .drain,
        .communicate (some 10), .print "Timeout waiting for response", .kill])
    else
      (⟨rc == 0, none, some so, some se, some rc⟩,
       [.spawn cmd, .write (requestLine dcInitRequest), .drain,
        .communicate (some 10),
        .print ("STDOUT: " ++ so), .print ("STDERR: " ++ se),
        .print ("Return code: " ++ intStr rc)])

/-- The module-level names bound by the import statements of
`test_mcp_tools_comparison.py` (lines 1-12): note that `os` is not
among them, yet line 15 evaluates `os.getenv(...)`. -/
def toolsComparisonModuleNames : List String :=
  ["asyncio", "json", "sys", "Dict", "Any", "List", "load_dotenv"]

/-- The module-level names bound by the import statements of
`test_mcp_direct_comparison.py` (lines 1-13): again `os` is missing. -/
def directComparisonModuleNames : List String :=
  ["asyncio", "subprocess", "json", "sys", "Dict", "Any", "load_dotenv"]

/-- The message of a Python `NameError` for an unbound name. -/
def nameErrorMsg (n : String) : String :=
  "NameError: name \x27" ++ n ++ "\x27 is not defined"

/-- Environment-variable lookup (`os.getenv`). -/
def lookupEnv (env : List (String × String)) (k : String) : Option String :=
  match env.find? (fun p => p.1 == k) with
  | some p => some p.2
  | none => none

/-- Evaluate the module-level expression
`os.getenv('HELPMETEST_API_TOKEN')` under the module's bound names:
a `NameError` is raised when `os` was never imported, regardless of the
process environment. -/
def evalGetenvToken (names : List String) (env : List (String × String)) :
    Except String (Option String) :=
  if names.contains "os" then .ok (lookupEnv env "HELPMETEST_API_TOKEN")
  else .error (nameErrorMsg "os")

/-- The Node.js command built by the comparison scripts from the token. -/
def nodeCommand (tok : String) : List String :=
  ["node", "/Users/slava/work/helpmetest/cli/src/index.js", "mcp", tok, "--verbose"]

/-- The compiled-binary command built by the comparison scripts. -/
def builtCommand (tok : String) : List String :=
  ["/Users/slava/work/helpmetest/cli/dist/helpmetest-darwin-arm64", "mcp", tok,
   "--verbose"]

/-- Running `test_mcp_tools_comparison.py` as a script: module
initialization evaluates `os.getenv('HELPMETEST_API_TOKEN')` (which
raises `NameError`, `os` being unimported), would exit with status 1 on
a missing token (modelled as the raised `SystemExit`), and otherwise
runs `test_mcp_functionality`.  `.error` = an exception escaping the
top level; `.ok trace` = a completed run with the given prints. -/
def runToolsComparisonScript (env : List (String × String)) (ln : Option String)
    (n1 n2 n3 : RecvOutcome) (lb : Option String) (b1 b2 b3 : RecvOutcome) :
    Except String (List Act) :=
  match evalGetenvToken toolsComparisonModuleNames env with
  | .error e => .error e
  | .ok none => .error "SystemExit: 1"
  | .ok (some tok) =>
    .ok (runComparisonBody (nodeCommand tok) (builtCommand tok)
          ln n1 n2 n3 lb b1 b2 b3).2

/-- The `main()` body of `test_mcp_direct_comparison.py`: test both
versions with `test_mcp_server_direct` and print the comparison summary. -/
def runDirectMain (tok : String) (l1 : Option String) (t1 : Bool) (rc1 : Int)
    (so1 se1 : String) (l2 : Option String) (t2 : Bool) (rc2 : Int)
    (so2 se2 : String) : List Act :=
  (runDirect (nodeCommand tok) l1 t1 rc1 so1 se1).2
    ++ (runDirect (builtCommand tok) l2 t2 rc2 so2 se2).2
    ++ [.print "=== COMPARISON SUMMARY ===",
        .print ("Node.js success: "
          ++ pyBoolStr (runDirect (nodeCommand tok) l1 t1 rc1 so1 se1).1.success),
        .print ("Built version success: "
          ++ pyBoolStr (runDirect (builtCommand tok) l2 t2 rc2 so2 se2).1.success)]
    ++ (if (runDirect (nodeCommand tok) l1 t1 rc1 so1 se1).1.success
          != (runDirect (builtCommand tok) l2 t2 rc2 so2 se2).1.success then
          [.print "BUG DETECTED: Different behavior between versions!"]
        else [.print "Both versions behave the same"])

/-- Running `test_mcp_direct_comparison.py` as a script: the same
module-level `os.getenv` evaluation (raising `NameError`), then `main()`. -/
def runDirectComparisonScript (env : List (String × String)) (l1 : Option String)
    (t1 : Bool) (rc1 : Int) (so1 se1 : String) (l2 : Option String) (t2 : Bool)
    (rc2 : Int) (so2 se2 : String) : Except String (List Act) :=
  match evalGetenvToken directComparisonModuleNames env with
  | .error e => .error e
  | .ok none => .error "SystemExit: 1"
  | .ok (some tok) => .ok (runDirectMain tok l1 t1 rc1 so1 se1 l2 t2 rc2 so2 se2)

/-- The write actions of a trace, in order. -/
def writesOf (tr : List Act) : List String :=
  tr.filterMap fun a =>
    match a with
    | .write s => some s
    | _ => none

/-- Formalization of claim C1 as stated: for every well-formed request
sent through `send_request` of a started tester, either the returned
response carries the same identifier as the request, or a `TimeoutError`
is raised. -/
def respondsWithSameIdOrTimeoutError (req : Json) (out : RecvOutcome) : Bool :=
  match (sendRequest true req out).1 with
  | .ok resp => idOf resp == idOf req
  | .error e => e == "TimeoutError"

/-- A response line whose id (999) differs from the id of the request it
answers: `send_request` returns it unexamined. -/
def mismatchedReply : Json := .obj [
  ("jsonrpc", .str "2.0"), ("id", .num 999), ("result", .obj [])]

/-- What reading `package.json` next to `tests/version_utils.py` can come
to: file missing (`FileNotFoundError`, caught), file present but not
valid JSON (`json.JSONDecodeError`, caught), file present but unreadable
for another reason (e.g. `PermissionError` or `UnicodeDecodeError`,
NOT caught), or successfully parsed JSON content. -/
inductive FsState where
  | missing
  | invalidJson
  | unreadable (msg : String)
  | content (j : Json)

/-- Python type name of a parsed JSON value, for error messages. -/
def pyTypeName : Json → String
  | .null => "NoneType"
  | .bool _ => "bool"
  | .num _ => "int"
  | .str _ => "str"
  | .arr _ => "list"
  | .obj _ => "dict"

/-- The `AttributeError` raised by `package_data.get(...)` when the
parsed top-level JSON value is not a dict. -/
def attributeErrorMsg (j : Json) : String :=
  "AttributeError: \x27" ++ pyTypeName j ++ "\x27 object has no attribute \x27get\x27"

/-- `get_version` (`tests/version_utils.py:12-29`): returns
`package_data.get("version", "1.0.0")` when the file parses; the
`except` clause catches only `FileNotFoundError`, `json.JSONDecodeError`
and `KeyError`, so a read failure of another kind propagates, and a
parsed non-dict value makes `.get` raise an uncaught `AttributeError`. -/
def get_version : FsState → Except String Json
  | .missing => .ok (.str "1.0.0")
  | .invalidJson => .ok (.str "1.0.0")
  | .unreadable msg => .error msg
  | .content (.obj fields) => .ok ((dictGet fields "version").getD (.str "1.0.0"))
  | .content j => .error (attributeErrorMsg j)

/-- `get_user_agent` (`tests/version_utils.py:50-57`):
`f"HelpMeTest-CLI/{get_version()}"`. -/
def get_user_agent (fs : FsState) : Except String String :=
  match get_version fs with
  | .ok v => .ok ("HelpMeTest-CLI/" ++ pyStr v)
  | .error e => .error e

/-! ## Helper lemmas: `dumps` output is newline-free -/

theorem NLF_append {a b : String} (ha : NLF a) (hb : NLF b) : NLF (a ++ b) := by
  intro h
  rw [String.data_append, List.mem_append] at h
  rcases h with h | h
  · exact ha h
  · exact hb h

theorem digitChar_ne_nl (d : Nat) : digitChar d ≠ '\n' := by
  show Char.ofNat (48 + d % 10) ≠ '\n'
  exact (by decide : ∀ r, r < 10 → Char.ofNat (48 + r) ≠ '\n') (d % 10)
    (Nat.mod_lt _ (by omega))

theorem natChars_NLF (n : Nat) : '\n' ∉ natChars n := by
  induction n using Nat.strong_induction_on with
  | _ n ih =>
    rw [natChars]
    split
    · intro h
      rw [List.mem_singleton] at h
      exact digitChar_ne_nl n h.symm
    · intro h
      rw [List.mem_append] at h
      rcases h with h | h
      · exact ih (n / 10) (Nat.div_lt_self (by omega) (by omega)) h
      · rw [List.mem_singleton] at h
        exact digitChar_ne_nl (n % 10) h.symm

theorem intStr_NLF (n : Int) : NLF (intStr n) := by
  unfold intStr
  split
  · exact NLF_append (by decide) (natChars_NLF n.natAbs)
  · exact natChars_NLF n.natAbs

theorem hexDigitChar_ne_nl (m : Nat) (h : m < 16) : hexDigitChar m ≠ '\n' := by
  revert h
  exact (by decide : ∀ r, r < 16 → hexDigitChar r ≠ '\n') m

theorem escapeChar_NLF (c : Char) : NLF (escapeChar c) := by
  unfold escapeChar
  repeat' split
  · decide
  · decide
  · decide
  · decide
  · decide
  · decide
  · decide
  · rename_i h
    refine NLF_append (by decide) ?_
    intro hm
    simp only [List.mem_cons, List.not_mem_nil, or_false] at hm
    rcases hm with hm | hm
    · exact hexDigitChar_ne_nl (c.toNat / 16) (by omega) hm.symm
    · exact hexDigitChar_ne_nl (c.toNat % 16) (Nat.mod_lt _ (by omega)) hm.symm
  · rename_i h1 h2 h3 h4 h5 h6 h7 h8
    intro hm
    rw [show (String.singleton c).data = [c] from rfl, List.mem_singleton] at hm
    exact h3 hm.symm

theorem escapeString_NLF (s : String) : NLF (escapeString s) := by
  show NLF (s.data.foldr (fun c acc => escapeChar c ++ acc) "")
  induction s.data with
  | nil => decide
  | cons c l ih => exact NLF_append (escapeChar_NLF c) ih

mutual

theorem dumps_NLF : (j : Json) → NLF (dumps j)
  | .null => by decide
  | .bool true => by decide
  | .bool false => by decide
  | .num n => intStr_NLF n
  | .str s => NLF_append (NLF_append (by decide) (escapeString_NLF s)) (by decide)
  | .arr xs => NLF_append (NLF_append (by decide) (dumpsArr_NLF xs)) (by decide)
  | .obj fs => NLF_append (NLF_append (by decide) (dumpsObj_NLF fs)) (by decide)

theorem dumpsArr_NLF : (xs : List Json) → NLF (dumpsArr xs)
  | [] => by decide
  | [x] => dumps_NLF x
  | x :: y :: xs =>
    NLF_append (NLF_append (dumps_NLF x) (by decide)) (dumpsArr_NLF (y :: xs))

theorem dumpsObj_NLF : (fs : List (String × Json)) → NLF (dumpsObj fs)
  | [] => by decide
  | [(k, v)] =>
    NLF_append (NLF_append (NLF_append (by decide) (escapeString_NLF k))
      (by decide)) (dumps_NLF v)
  | (k, v) :: f :: fs =>
    NLF_append (NLF_append (NLF_append (NLF_append (NLF_append (by decide)
      (escapeString_NLF k)) (by decide)) (dumps_NLF v)) (by decide))
      (dumpsObj_NLF (f :: fs))

end

theorem newlineCount_dumps (j : Json) : newlineCount (dumps j) = 0 :=
  List.count_eq_zero.mpr (dumps_NLF j)

theorem newlineCount_requestLine (j : Json) : newlineCount (requestLine j) = 1 := by
  show ((dumps j ++ "\n").data.count '\n') = 1
  rw [String.data_append, List.count_append]
  rw [show ((dumps j).data.count '\n') = 0 from List.count_eq_zero.mpr (dumps_NLF j)]
  decide

theorem finalSummary_mem (nr br : SessionResult) :
    Act.print "=== FINAL SUMMARY ===" ∈ comparisonTrace nr br := by
  unfold comparisonTrace
  simp [List.mem_append]

/-! ## Claim theorems -/

/-- Claim C1, as stated, is false of the code: `MCPTester.send_request`
neither checks that the response id equals the request id (here a reply
with id 999 answers a request with id 1 and is returned as is), nor
raises `TimeoutError` on timeout (it returns `{"error": "Timeout"}`
instead). -/
theorem c1_counterexample :
    ¬ (∀ req out, respondsWithSameIdOrTimeoutError req out = true) := fun h =>
  absurd (h tcInitRequest (.parsed mismatchedReply)) (by decide)

/-- Claim C1 amended: once the process is started, `send_request` never
raises — for every receive outcome it returns a value: the parsed
response line unexamined (no identifier check), or an error-tagged dict
for a timeout, an empty line, or a parse failure.  The only raise is the
`RuntimeError` when the process was never started. -/
theorem c1_amended :
    (∀ req out, (sendRequest true req out).1 = .ok (sendRequestResult out))
    ∧ sendRequestResult RecvOutcome.timeout = errorResult "Timeout"
    ∧ sendRequestResult RecvOutcome.emptyLine = errorResult "Empty response"
    ∧ (∀ j, sendRequestResult (RecvOutcome.parsed j) = j)
    ∧ (∀ m, sendRequestResult (RecvOutcome.decodeError m)
        = errorResult ("JSON decode error: " ++ m))
    ∧ (∀ req out, (sendRequest false req out).1 = .error "Process not started") :=
  ⟨fun _ _ => rfl, rfl, rfl, fun _ => rfl, fun _ => rfl, fun _ _ => rfl⟩

/-- Claim C2, as stated, is false of the code: with the token variable
present in the environment (or absent — the outcome is the same), running
`test_mcp_tools_comparison.py` raises `NameError` at module
initialization, because line 15 evaluates `os.getenv(...)` and `os` is
never imported; no summary is ever printed. -/
theorem c2_counterexample :
    runToolsComparisonScript [("HELPMETEST_API_TOKEN", "token")] none
      RecvOutcome.emptyLine RecvOutcome.emptyLine RecvOutcome.emptyLine none
      RecvOutcome.emptyLine RecvOutcome.emptyLine RecvOutcome.emptyLine
    = .error (nameErrorMsg "os") := rfl

/-- Claim C2 amended: both comparison scripts raise `NameError: name
'os' is not defined` at module load for every environment, so no run and
no summary ever happens; the summary guarantee holds of the
`test_mcp_functionality` body itself, which prints the final summary for
every combination of launch and receive outcomes of the two sessions. -/
theorem c2_amended :
    (∀ env ln n1 n2 n3 lb b1 b2 b3,
      runToolsComparisonScript env ln n1 n2 n3 lb b1 b2 b3
        = .error (nameErrorMsg "os"))
    ∧ (∀ env l1 t1 rc1 so1 se1 l2 t2 rc2 so2 se2,
      runDirectComparisonScript env l1 t1 rc1 so1 se1 l2 t2 rc2 so2 se2
        = .error (nameErrorMsg "os"))
    ∧ (∀ nc bc ln n1 n2 n3 lb b1 b2 b3,
      Act.print "=== FINAL SUMMARY ==="
        ∈ (runComparisonBody nc bc ln n1 n2 n3 lb b1 b2 b3).2) := by
  refine ⟨fun env ln n1 n2 n3 lb b1 b2 b3 => rfl,
    fun env l1 t1 rc1 so1 se1 l2 t2 rc2 so2 se2 => rfl,
    fun nc bc ln n1 n2 n3 lb b1 b2 b3 => ?_⟩
  exact List.mem_append_right _ (finalSummary_mem _ _)

/-- Claim C3, as stated, is false of the code: when both sessions
produce the structurally equal result `{}` (an empty JSON object, which
is falsy in Python), the guard `if node_result and built_result:` fails
and the step is reported as `Missing results`, not as equal. -/
theorem c3_counterexample :
    pyEq (Json.obj []) (Json.obj []) = true
    ∧ compareStep (some (Json.obj [])) (some (Json.obj []))
        = StepReport.missing (some (Json.obj [])) (some (Json.obj [])) := by
  constructor
  · simp [pyEq, pyEqFields]
  · rfl

/-- Claim C3 amended: for every step whose two results are present and
truthy (non-empty), the comparison loop reports `identical` exactly when
the payloads are equal under Python `==`, and otherwise reports the
difference carrying both payloads; a missing or falsy result on either
side is reported as missing instead. -/
theorem c3_amended :
    (∀ x y, pyTruthy x = true → pyTruthy y = true →
      compareStep (some x) (some y)
        = if pyEq x y then StepReport.identical else StepReport.differ x y)
    ∧ (∀ b, compareStep none b = StepReport.missing none b)
    ∧ (∀ a, compareStep a none = StepReport.missing a none) := by
  refine ⟨fun x y hx hy => ?_, fun b => rfl, fun a => ?_⟩
  · simp [compareStep, hx, hy]
  · cases a <;> rfl

/-- Witness for C3's amended theorem at concrete payloads. -/
theorem c3_witness :
    compareStep (some (Json.num 1)) (some (Json.num 1)) = StepReport.identical
    ∧ compareStep (some (Json.num 1)) (some (Json.num 2))
        = StepReport.differ (Json.num 1) (Json.num 2) := by
  constructor
  · rw [c3_amended.1 (Json.num 1) (Json.num 1) rfl rfl]
    simp [pyEq]
  · rw [c3_amended.1 (Json.num 1) (Json.num 2) rfl rfl]
    simp [pyEq]

/-- Claim C4, as stated, is false of the code: the protocol run of
`test_mcp_functionality` never sends the `notifications/initialized`
notification — its method sequence is exactly initialize, tools/list,
tools/call. -/
theorem c4_counterexample :
    tcRequests.filterMap methodOf = ["initialize", "tools/list", "tools/call"]
    ∧ "notifications/initialized" ∉ tcRequests.filterMap methodOf := by
  refine ⟨rfl, ?_⟩
  decide

/-- Claim C4 amended: each script issues its requests in a fixed order
with no branching — `test_mcp_server_directly` sends initialize, then
notifications/initialized, then tools/list, then tools/call, while the
`test_mcp_functionality` sessions send initialize, tools/list, tools/call
with no initialized notification at all. -/
theorem c4_amended :
    writesOf simpleScriptTrace = simpleRequests.map requestLine
    ∧ simpleRequests.filterMap methodOf
        = ["initialize", "notifications/initialized", "tools/list", "tools/call"]
    ∧ (∀ cmd o1 o2 o3,
        writesOf (runSession cmd none o1 o2 o3).2 = tcRequests.map requestLine)
    ∧ tcRequests.filterMap methodOf = ["initialize", "tools/list", "tools/call"] :=
  ⟨rfl, rfl, fun _ _ _ _ => rfl, rfl⟩

/-- Claim C5 confirmed: when the child yields no line within the 5-second
bound, the receive step of `test_mcp_functionality` records the timeout
diagnostic `{"error": "Timeout"}` and the session's trace terminates the
child; in `debug_mcp.py` the timeout branch prints `Process timed out`
and kills the child.  Control returns to the caller in both (the model
functions are total). -/
theorem c5_timeout_terminates :
    ∀ cmd (o2 o3 : RecvOutcome) cliDir so se rc,
    (runSession cmd none RecvOutcome.timeout o2 o3).1.init
        = some (errorResult "Timeout")
    ∧ Act.readLine (some 5) ∈ (runSession cmd none RecvOutcome.timeout o2 o3).2
    ∧ Act.terminate ∈ (runSession cmd none RecvOutcome.timeout o2 o3).2
    ∧ Act.print "Process timed out" ∈ debugRun cliDir true so se rc
    ∧ Act.kill ∈ debugRun cliDir true so se rc := by
  intro cmd o2 o3 cliDir so se rc
  refine ⟨rfl, ?_, ?_, ?_, ?_⟩ <;>
    simp [runSession, debugRun, sendRequest, List.mem_append]

/-- Claim C6, as stated, is false of the code: in
`test_mcp_functionality` a session whose first receive times out (its
initialize result is the error tag) still writes the tools/list and
tools/call request lines afterwards — a failed step does not end the
session's run. -/
theorem c6_counterexample :
    (runSession (nodeCommand "token") none RecvOutcome.timeout RecvOutcome.timeout
        RecvOutcome.timeout).1.init = some (errorResult "Timeout")
    ∧ writesOf (runSession (nodeCommand "token") none RecvOutcome.timeout
        RecvOutcome.timeout RecvOutcome.timeout).2
      = [requestLine tcInitRequest, requestLine tcToolsListRequest,
         requestLine tcToolCallRequest] := ⟨rfl, rfl⟩

/-- Claim C6 amended: step failures surfaced as error-tagged results
(timeout, empty line, parse error) do not stop the session: for every
combination of receive outcomes the run still writes all three request
lines, each exactly once and in order (so there is indeed no retry), and
the session is still recorded as successful. -/
theorem c6_amended : ∀ cmd (o1 o2 o3 : RecvOutcome),
    writesOf (runSession cmd none o1 o2 o3).2 = tcRequests.map requestLine
    ∧ (runSession cmd none o1 o2 o3).1.success = true :=
  fun _ _ _ _ => ⟨rfl, rfl⟩

/-- Claim C7 confirmed: when the spawn attempt raises (as it does for a
nonexistent executable path), both `test_mcp_functionality` and
`test_mcp_server_direct` catch the launch error, record an error-tagged
unsuccessful result, and write no request bytes at all. -/
theorem c7_launch_error_no_traffic :
    ∀ cmd e (o1 o2 o3 : RecvOutcome) td rc so se,
    (runSession cmd (some e) o1 o2 o3).1.success = false
    ∧ (runSession cmd (some e) o1 o2 o3).1.error = some e
    ∧ writesOf (runSession cmd (some e) o1 o2 o3).2 = []
    ∧ (runDirect cmd (some e) td rc so se).1.success = false
    ∧ (runDirect cmd (some e) td rc so se).1.error = some e
    ∧ writesOf (runDirect cmd (some e) td rc so se).2 = [] :=
  fun _ _ _ _ _ _ _ _ _ => ⟨rfl, rfl, rfl, rfl, rfl, rfl⟩

/-- Claim C8 confirmed: for every request, `send_request` writes exactly
one `json.dumps` document followed by exactly one newline (the document
itself contains no newline), drains the stream, and only then awaits the
response line. -/
theorem c8_request_serialization : ∀ (req : Json) (out : RecvOutcome),
    (sendRequest true req out).2
        = [Act.write (requestLine req), Act.drain, Act.readLine (some 5)]
    ∧ requestLine req = dumps req ++ "\n"
    ∧ newlineCount (dumps req) = 0
    ∧ newlineCount (requestLine req) = 1 :=
  fun req _ => ⟨rfl, rfl, newlineCount_dumps req, newlineCount_requestLine req⟩

/-- Claim C9 confirmed: within each session's protocol sequence the
identifiers carried by requests (notifications carry none) are 1, 2, 3 —
pairwise distinct. -/
theorem c9_ids_distinct :
    simpleRequests.filterMap idOf = [1, 2, 3]
    ∧ (simpleRequests.filterMap idOf).Nodup
    ∧ tcRequests.filterMap idOf = [1, 2, 3]
    ∧ (tcRequests.filterMap idOf).Nodup := by
  refine ⟨rfl, ?_, rfl, ?_⟩ <;> decide

/-- Claim C10, as stated, is false of the code: `get_version` is not
total — when `package.json` exists and parses as valid JSON that is not
an object (here the empty list `[]`), `package_data.get` raises an
uncaught `AttributeError` instead of returning the fallback. -/
theorem c10_counterexample :
    get_version (FsState.content (Json.arr []))
      = Except.error
          "AttributeError: \x27list\x27 object has no attribute \x27get\x27" := rfl

/-- Claim C10 amended: `get_version` returns the `"version"` field when
the file parses to an object carrying one, the fallback `"1.0.0"` when
the field is absent, the file is missing, or the file is not valid JSON;
but a parsed non-object value (or a read failure other than
`FileNotFoundError`/`JSONDecodeError`) raises.  Whenever `get_version`
returns, `get_user_agent` returns `"HelpMeTest-CLI/"` followed by that
version. -/
theorem c10_amended :
    (∀ fields v, dictGet fields "version" = some v →
        get_version (FsState.content (Json.obj fields)) = Except.ok v)
    ∧ (∀ fields, dictGet fields "version" = none →
        get_version (FsState.content (Json.obj fields))
          = Except.ok (Json.str "1.0.0"))
    ∧ get_version FsState.missing = Except.ok (Json.str "1.0.0")
    ∧ get_version FsState.invalidJson = Except.ok (Json.str "1.0.0")
    ∧ (∀ msg, get_version (FsState.unreadable msg) = Except.error msg)
    ∧ (∀ fs v, get_version fs = Except.ok v →
        get_user_agent fs = Except.ok ("HelpMeTest-CLI/" ++ pyStr v)) := by
  refine ⟨fun fields v h => ?_, fun fields h => ?_, rfl, rfl, fun msg => rfl,
    fun fs v h => ?_⟩
  · simp [get_version, h]
  · simp [get_version, h]
  · unfold get_user_agent
    rw [h]

/-- Witness for C10's amended theorem at a concrete `package.json`. -/
theorem c10_witness :
    get_version (FsState.content (Json.obj
        [("name", Json.str "helpmetest-cli"), ("version", Json.str "2.3.4")]))
      = Except.ok (Json.str "2.3.4")
    ∧ get_user_agent (FsState.content (Json.obj
        [("name", Json.str "helpmetest-cli"), ("version", Json.str "2.3.4")]))
      = Except.ok ("HelpMeTest-CLI/" ++ pyStr (Json.str "2.3.4")) := by
  constructor
  · exact c10_amended.1 _ _ rfl
  · exact c10_amended.2.2.2.2.2 _ _ (c10_amended.1 _ _ rfl)
